import Mathlib

/-!
Verification of the iBorder corner-smoothing library (src/iborder.js).

The JavaScript numbers are modelled as rationals (ℚ); `NaN` can only arise
from `parseFloat` on an unparseable string, so the float-parsing helper is
modelled as `Option ℚ` with `none` playing the role of `NaN`.  The SVG path
string produced by `generateiOSRoundedRectPath` is modelled as the list of
drawing commands it denotes (absolute coordinates: the `H`/`V` shorthands
become `line` commands at the resolved absolute point).  The CSS Paint API
painters are modelled as functions returning the list of drawing-surface
operations they perform, in order.
-/

namespace IBorder

/-- One SVG path command, with absolute coordinates.  `curve` is a cubic
Bézier: two control points followed by the end point. -/
inductive PathCmd where
  | move (x y : ℚ)
  | line (x y : ℚ)
  | curve (x1 y1 x2 y2 x y : ℚ)
  | close
deriving DecidableEq, Repr

/-- The radius clamp performed at the top of `generateiOSRoundedRectPath`
(src/iborder.js lines 11-12):
`maxRadius = Math.min(width / 2, height / 2)`;
`r = Math.max(0, Math.min(radius, maxRadius))`. -/
def clampedRadius (width height radius : ℚ) : ℚ :=
  max 0 (min radius (min (width / 2) (height / 2)))

/-- `generateiOSRoundedRectPath` from src/iborder.js (lines 9-34), as the
command list denoted by the SVG path string it returns.  When the clamped
radius is 0 the string is `M0 0 H{width} V{height} H0 Z`; otherwise the
string is the concatenation of the four corner segment groups followed by
`Z`, transcribed command by command with `H`/`V` resolved to absolute
`line` commands. -/
def generateiOSRoundedRectPath (width height radius : ℚ) : List PathCmd :=
  let r := clampedRadius width height radius
  if r = 0 then
    [.move 0 0, .line width 0, .line width height, .line 0 height, .close]
  else
    let r065 := r * 0.65
    let r0475 := r * 0.475
    let r00681 := r * 0.0681
    let r03413 := r * 0.3413
    let r01280 := r * 0.1280
    let r02237 := r * 0.2237
    [.move 0 r,
     -- topLeft
     .curve 0 r065 0 r0475 r00681 r03413,
     .curve r01280 r02237 r02237 r01280 r03413 r00681,
     .curve r0475 0 r065 0 r 0,
     -- topRight
     .line (width - r) 0,
     .curve (width - r065) 0 (width - r0475) 0 (width - r03413) r00681,
     .curve (width - r02237) r01280 (width - r01280) r02237 (width - r00681) r03413,
     .curve width r0475 width r065 width r,
     -- bottomRight
     .line width (height - r),
     .curve width (height - r065) width (height - r0475) (width - r00681) (height - r03413),
     .curve (width - r01280) (height - r02237) (width - r02237) (height - r01280) (width - r03413) (height - r00681),
     .curve (width - r0475) height (width - r065) height (width - r) height,
     -- bottomLeft
     .line r height,
     .curve r065 height r0475 height r03413 (height - r00681),
     .curve r02237 (height - r01280) r01280 (height - r02237) r00681 (height - r03413),
     .curve 0 (height - r0475) 0 (height - r065) 0 (height - r),
     .close]

/-- Value of a digit character. -/
def digitsToNat (ds : List Char) : Nat :=
  ds.foldl (fun acc c => acc * 10 + (c.toNat - '0'.toNat)) 0

/-- The scanning stage of JavaScript `parseFloat`: skip leading
whitespace, read an optional sign, decimal digits with an optional
fractional part and an optional exponent, ignoring any trailing text.
Returns `none` (the `NaN` case) when no digits can be read, otherwise
`(negative?, integer part, fractional digits value, number of fractional
digits, exponent)`.  (The `Infinity` spellings, which have no rational
value, are outside this model; no input considered here uses them.) -/
def parseFloatParts (s : String) : Option (Bool × Nat × Nat × Nat × ℤ) :=
  let cs := s.data.dropWhile (fun c => c = ' ' ∨ c = '\t' ∨ c = '\n' ∨ c = '\r')
  let signAndRest : Bool × List Char :=
    match cs with
    | '+' :: rest => (false, rest)
    | '-' :: rest => (true, rest)
    | _ => (false, cs)
  let neg := signAndRest.1
  let cs1 := signAndRest.2
  let intDigits := cs1.takeWhile Char.isDigit
  let cs2 := cs1.dropWhile Char.isDigit
  let fracAndRest : List Char × List Char :=
    match cs2 with
    | '.' :: rest => (rest.takeWhile Char.isDigit, rest.dropWhile Char.isDigit)
    | _ => ([], cs2)
  let fracDigits := fracAndRest.1
  let cs3 := fracAndRest.2
  if intDigits.isEmpty ∧ fracDigits.isEmpty then
    none
  else
    let expVal : ℤ :=
      match cs3 with
      | 'e' :: rest =>
        (match rest with
         | '+' :: r2 => (digitsToNat (r2.takeWhile Char.isDigit) : ℤ)
         | '-' :: r2 => -(digitsToNat (r2.takeWhile Char.isDigit) : ℤ)
         | _ => (digitsToNat (rest.takeWhile Char.isDigit) : ℤ))
      | 'E' :: rest =>
        (match rest with
         | '+' :: r2 => (digitsToNat (r2.takeWhile Char.isDigit) : ℤ)
         | '-' :: r2 => -(digitsToNat (r2.takeWhile Char.isDigit) : ℤ)
         | _ => (digitsToNat (rest.takeWhile Char.isDigit) : ℤ))
      | _ => 0
    some (neg, digitsToNat intDigits, digitsToNat fracDigits, fracDigits.length, expVal)

/-- JavaScript `parseFloat` on a string, modelled over ℚ: the value
denoted by the scanned sign, digits and exponent, or `none` for the `NaN`
result. -/
def parseFloat (s : String) : Option ℚ :=
  (parseFloatParts s).map (fun p =>
    (if p.1 then (-1 : ℚ) else 1) * ((p.2.1 : ℚ) + (p.2.2.1 : ℚ) / 10 ^ p.2.2.2.1)
      * (10 : ℚ) ^ p.2.2.2.2)

/-- A custom-property value handed to a painter by `props.get(...)`: either
a CSS Typed OM value exposing a numeric `.value`, or a value whose string
form is parsed with `parseFloat`.  An absent property is `Option.none` at
the use sites. -/
inductive CSSProp where
  | numeric (v : ℚ)
  | text (s : String)
deriving DecidableEq, Repr

/-- `parseCSSLength` from src/iborder.js (lines 42-53).  `value` is the
JavaScript local: it holds `NaN` (modelled by `none`) exactly when the
string branch fails to parse; the final line is
`isNaN(value) ? defaultValue : Math.max(0, value)`. -/
def parseCSSLength (prop : Option CSSProp) (defaultValue : ℚ) : ℚ :=
  let value : Option ℚ :=
    match prop with
    | none => some defaultValue
    | some (.numeric v) => some v
    | some (.text s) => parseFloat s
  match value with
  | none => defaultValue
  | some v => max 0 v

/-- An operation performed on the 2D drawing surface (`ctx`).
`setTransform` is included so that "the transform is never reset" is a
statement about the operation vocabulary, even though neither painter
emits it. -/
inductive CtxOp where
  | setFillStyle (color : String)
  | fill (path : List PathCmd)
  | setStrokeStyle (color : String)
  | setLineWidth (w : ℚ)
  | translate (dx dy : ℚ)
  | stroke (path : List PathCmd)
  | setTransform (a b c d e f : ℚ)
deriving DecidableEq, Repr

/-- The element size passed to a painter. -/
structure Size where
  width : ℚ
  height : ℚ
deriving DecidableEq, Repr

/-- The `paint` method of the fill painter registered as the name
consisting of i, b, o, r, d, e, r (src/iborder.js lines 65-77), as the
list of drawing-surface operations it performs. -/
def iborderPaint (size : Size) (propRadius : Option CSSProp) : List CtxOp :=
  let radius := parseCSSLength propRadius 10
  let path := generateiOSRoundedRectPath size.width size.height radius
  [.setFillStyle "black", .fill path]

/-- The `paint` method of the inset-stroke painter registered as
iborder-s (src/iborder.js lines 89-124), as the list of drawing-surface
operations it performs. -/
def iborderSPaint (size : Size) (propWidth propRadius : Option CSSProp) : List CtxOp :=
  let strokeWidth := parseCSSLength propWidth 2
  let radius := parseCSSLength propRadius 10
  if strokeWidth ≤ 0 then
    []
  else
    let halfStroke := strokeWidth / 2
    let adjustedWidth := max 0 (size.width - strokeWidth)
    let adjustedHeight := max 0 (size.height - strokeWidth)
    let adjustedRadius := max 0 (radius - halfStroke)
    let path := generateiOSRoundedRectPath adjustedWidth adjustedHeight adjustedRadius
    [.setStrokeStyle "black", .setLineWidth strokeWidth,
     .translate halfStroke halfStroke, .stroke path]

/-- Whether a path command is a cubic curve command. -/
def isCurveCmd : PathCmd → Bool
  | .curve _ _ _ _ _ _ => true
  | _ => false

/-- Whether a path command is a line command. -/
def isLineCmd : PathCmd → Bool
  | .line _ _ => true
  | _ => false

/-- Whether a path command is a close command. -/
def isCloseCmd : PathCmd → Bool
  | .close => true
  | _ => false

/-- Number of cubic curve commands in a path. -/
def countCurveCmds (p : List PathCmd) : Nat := p.countP (fun c => isCurveCmd c)

/-- Number of line commands in a path. -/
def countLineCmds (p : List PathCmd) : Nat := p.countP (fun c => isLineCmd c)

/-- Number of close commands in a path. -/
def countCloseCmds (p : List PathCmd) : Nat := p.countP (fun c => isCloseCmd c)

/-- The starting point of a path: the coordinates of its leading move
command, if any. -/
def pathStart : List PathCmd → Option (ℚ × ℚ)
  | .move x y :: _ => some (x, y)
  | _ => none

/-- The end point of the first cubic curve command of a path, if any. -/
def firstCurveEnd : List PathCmd → Option (ℚ × ℚ)
  | [] => none
  | .curve _ _ _ _ x y :: _ => some (x, y)
  | _ :: rest => firstCurveEnd rest

/-- The six multipliers applied to the clamped radius to derive the corner
magnitudes a, b, c, d, e, f of the squircle profile. -/
def cornerMultipliers : List ℚ := [0.65, 0.475, 0.0681, 0.3413, 0.1280, 0.2237]

/-- The six derived corner magnitudes, as computed in the source
(`r * 0.65`, ..., `r * 0.2237`). -/
def cornerMagnitudes (r : ℚ) : List ℚ :=
  [r * 0.65, r * 0.475, r * 0.0681, r * 0.3413, r * 0.1280, r * 0.2237]

/-- The coordinate values that curve commands of the rounded-rect path may
use: 0, the rectangle extents, the clamped radius, the six derived corner
magnitudes, and their reflections in `width` and `height`. -/
def allowedCurveCoords (width height r : ℚ) : List ℚ :=
  [0, r, width, height, width - r, height - r]
    ++ cornerMagnitudes r
    ++ (cornerMagnitudes r).map (fun m => width - m)
    ++ (cornerMagnitudes r).map (fun m => height - m)

/-- All six coordinates of a curve command lie in the allowed list; other
commands are unconstrained. -/
def curveCoordsAllowed (allowed : List ℚ) : PathCmd → Prop
  | .curve x1 y1 x2 y2 x y =>
      x1 ∈ allowed ∧ y1 ∈ allowed ∧ x2 ∈ allowed ∧ y2 ∈ allowed
        ∧ x ∈ allowed ∧ y ∈ allowed
  | _ => True

/-- The net translation component of the drawing-surface transform after a
list of operations, starting from the identity transform: `translate`
accumulates, `setTransform` overwrites, everything else leaves it
unchanged. -/
def netTranslation (ops : List CtxOp) : ℚ × ℚ :=
  ops.foldl
    (fun t op =>
      match op with
      | .translate dx dy => (t.1 + dx, t.2 + dy)
      | .setTransform _ _ _ _ e f => (e, f)
      | _ => t)
    (0, 0)

/-! ### Helper evaluations of `parseFloat` on concrete strings -/

theorem parseFloat_12_5px : parseFloat "12.5px" = some 12.5 := by
  have h : parseFloatParts "12.5px" = some (false, 12, 5, 1, 0) := by decide
  simp [parseFloat, h]
  norm_num

theorem parseFloat_neg5px : parseFloat "-5px" = some (-5) := by
  have h : parseFloatParts "-5px" = some (true, 5, 0, 0, 0) := by decide
  simp [parseFloat, h]

theorem parseFloat_abc : parseFloat "abc" = none := by
  have h : parseFloatParts "abc" = none := by decide
  simp [parseFloat, h]

/-! ### The claims -/

/-- C1: for every `width ≥ 0`, `height ≥ 0` and every radius, the
effective radius computed by `generateiOSRoundedRectPath` is
`max 0 (min radius (min (width/2) (height/2)))`, and it satisfies
`0 ≤ r ≤ min width height / 2`. -/
theorem clampedRadius_formula_and_bounds (width height radius : ℚ)
    (hw : 0 ≤ width) (hh : 0 ≤ height) :
    clampedRadius width height radius
        = max 0 (min radius (min (width / 2) (height / 2)))
      ∧ 0 ≤ clampedRadius width height radius
      ∧ clampedRadius width height radius ≤ min width height / 2 := by
  refine ⟨rfl, le_max_left 0 _, ?_⟩
  have hmin : min (width / 2) (height / 2) = min width height / 2 := by
    rcases le_total width height with h | h
    · rw [min_eq_left h, min_eq_left (by linarith : width / 2 ≤ height / 2)]
    · rw [min_eq_right h, min_eq_right (by linarith : height / 2 ≤ width / 2)]
  have h0 : 0 ≤ min width height / 2 := by
    have := le_min hw hh
    linarith
  apply max_le h0
  calc min radius (min (width / 2) (height / 2)) ≤ min (width / 2) (height / 2) :=
        min_le_right _ _
    _ = min width height / 2 := hmin

theorem clampedRadius_formula_and_bounds_witness :
    (0 : ℚ) ≤ 40 ∧ (0 : ℚ) ≤ 30
      ∧ (clampedRadius 40 30 100 = max 0 (min 100 (min (40 / 2) (30 / 2)))
         ∧ 0 ≤ clampedRadius 40 30 100
         ∧ clampedRadius 40 30 100 ≤ min 40 30 / 2) :=
  ⟨by norm_num, by norm_num,
   clampedRadius_formula_and_bounds 40 30 100 (by norm_num) (by norm_num)⟩

/-- C2: whenever the clamped radius is 0 (in particular whenever
`min width height = 0`), `generateiOSRoundedRectPath` returns exactly the
trivial axis-aligned rectangle contour — move to (0,0), line to (width,0),
line to (width,height), line to (0,height), close — with no curve
command. -/
theorem generate_zero_radius_rectangle (width height radius : ℚ)
    (h : clampedRadius width height radius = 0) :
    generateiOSRoundedRectPath width height radius
      = [.move 0 0, .line width 0, .line width height, .line 0 height, .close] := by
  simp [generateiOSRoundedRectPath, h]

theorem generate_zero_radius_rectangle_witness :
    clampedRadius 5 0 3 = 0
      ∧ generateiOSRoundedRectPath 5 0 3
          = [.move 0 0, .line 5 0, .line 5 0, .line 0 0, .close] :=
  ⟨by norm_num [clampedRadius],
   generate_zero_radius_rectangle 5 0 3 (by norm_num [clampedRadius])⟩

/-- C3 counterexample: at width = height = 100, radius = 10 the clamped
radius is positive, yet the contour contains 12 cubic curve commands, not
the 8 the claim asserts (the code emits three cubics per corner, not
two). -/
theorem generate_eight_curves_refuted :
    0 < clampedRadius 100 100 10
      ∧ countCurveCmds (generateiOSRoundedRectPath 100 100 10) ≠ 8 := by
  constructor
  · norm_num [clampedRadius]
  · norm_num [generateiOSRoundedRectPath, clampedRadius, countCurveCmds, isCurveCmd,
      List.countP, List.countP.go]

/-- C3 amended: for every input with clamped radius `r > 0`, the contour
models each corner as exactly three cubic Bézier curve segments, so it
contains exactly 12 curve commands (3 per corner × 4 corners) plus 3 line
commands (the fourth side being supplied by the close command) plus one
close. -/
theorem generate_command_counts (width height radius : ℚ)
    (h : 0 < clampedRadius width height radius) :
    countCurveCmds (generateiOSRoundedRectPath width height radius) = 12
      ∧ countLineCmds (generateiOSRoundedRectPath width height radius) = 3
      ∧ countCloseCmds (generateiOSRoundedRectPath width height radius) = 1 := by
  have hne : clampedRadius width height radius ≠ 0 := ne_of_gt h
  refine ⟨?_, ?_, ?_⟩ <;>
    simp [generateiOSRoundedRectPath, hne, countCurveCmds, countLineCmds, countCloseCmds,
      isCurveCmd, isLineCmd, isCloseCmd, List.countP, List.countP.go]

theorem generate_command_counts_witness :
    0 < clampedRadius 100 100 10
      ∧ (countCurveCmds (generateiOSRoundedRectPath 100 100 10) = 12
         ∧ countLineCmds (generateiOSRoundedRectPath 100 100 10) = 3
         ∧ countCloseCmds (generateiOSRoundedRectPath 100 100 10) = 1) :=
  ⟨by norm_num [clampedRadius],
   generate_command_counts 100 100 10 (by norm_num [clampedRadius])⟩

/-- C4 counterexample: the first cubic curve command of the path for
(100, 100, 10) ends at (0.681, 3.413), not at (6.81, 34.13) as the claim
asserts. -/
theorem generate_first_curve_end_refuted :
    firstCurveEnd (generateiOSRoundedRectPath 100 100 10) ≠ some (6.81, 34.13) := by
  norm_num [generateiOSRoundedRectPath, clampedRadius, firstCurveEnd]

/-- C4 amended: the path for (100, 100, 10) begins its contour at (0, 10),
and its first cubic curve command ends at (0.681, 3.413) — the derived
magnitudes c = 0.0681·r and d = 0.3413·r at r = 10. -/
theorem generate_100_100_10_start_first_curve :
    pathStart (generateiOSRoundedRectPath 100 100 10) = some (0, 10)
      ∧ firstCurveEnd (generateiOSRoundedRectPath 100 100 10) = some (0.681, 3.413) := by
  constructor <;>
    norm_num [generateiOSRoundedRectPath, clampedRadius, pathStart, firstCurveEnd]

/-- C5: for every input with clamped radius `r > 0`, the contour starts at
(0, r), every coordinate of every curve command is one of 0, r, width,
height, or one of the six derived magnitudes 0.65·r, 0.475·r, 0.0681·r,
0.3413·r, 0.1280·r, 0.2237·r (possibly reflected in width or height), and
the circular-arc kappa constant 0.5523 is not among the six multipliers
used. -/
theorem generate_start_and_curve_magnitudes (width height radius : ℚ)
    (h : 0 < clampedRadius width height radius) :
    pathStart (generateiOSRoundedRectPath width height radius)
        = some (0, clampedRadius width height radius)
      ∧ (∀ cmd ∈ generateiOSRoundedRectPath width height radius,
          curveCoordsAllowed
            (allowedCurveCoords width height (clampedRadius width height radius)) cmd)
      ∧ (0.5523 : ℚ) ∉ cornerMultipliers := by
  have hne : clampedRadius width height radius ≠ 0 := ne_of_gt h
  refine ⟨?_, ?_, by norm_num [cornerMultipliers]⟩
  · simp [generateiOSRoundedRectPath, hne, pathStart]
  · intro cmd hcmd
    simp only [generateiOSRoundedRectPath, hne, if_false, List.mem_cons,
      List.not_mem_nil, or_false] at hcmd
    rcases hcmd with rfl | rfl | rfl | rfl | rfl | rfl | rfl | rfl | rfl | rfl | rfl | rfl
      | rfl | rfl | rfl | rfl | rfl <;>
      simp [curveCoordsAllowed, allowedCurveCoords, cornerMagnitudes]

theorem generate_start_and_curve_magnitudes_witness :
    0 < clampedRadius 100 100 10
      ∧ (pathStart (generateiOSRoundedRectPath 100 100 10)
            = some (0, clampedRadius 100 100 10)
         ∧ (∀ cmd ∈ generateiOSRoundedRectPath 100 100 10,
             curveCoordsAllowed
               (allowedCurveCoords 100 100 (clampedRadius 100 100 10)) cmd)
         ∧ (0.5523 : ℚ) ∉ cornerMultipliers) :=
  ⟨by norm_num [clampedRadius],
   generate_start_and_curve_magnitudes 100 100 10 (by norm_num [clampedRadius])⟩

/-- C6: whenever the resolved stroke width is ≤ 0, the InsetStroke painter
(iborder-s) performs no drawing-surface operation at all. -/
theorem iborderSPaint_nonpositive_stroke_noop (size : Size)
    (propWidth propRadius : Option CSSProp)
    (h : parseCSSLength propWidth 2 ≤ 0) :
    iborderSPaint size propWidth propRadius = [] := by
  simp [iborderSPaint, h]

theorem iborderSPaint_nonpositive_stroke_noop_witness :
    parseCSSLength (some (.numeric (-3))) 2 ≤ 0
      ∧ iborderSPaint ⟨50, 40⟩ (some (.numeric (-3))) none = [] :=
  ⟨by norm_num [parseCSSLength],
   iborderSPaint_nonpositive_stroke_noop ⟨50, 40⟩ (some (.numeric (-3))) none
     (by norm_num [parseCSSLength])⟩

/-- C7: whenever the resolved stroke width is > 0, the InsetStroke painter
builds its path with `generateiOSRoundedRectPath (max 0 (width − sw))
(max 0 (height − sw)) (max 0 (radius − sw/2))`, sets the stroke style,
sets the line width to sw, translates the drawing-surface origin by
(sw/2, sw/2), and strokes that path — in that order and nothing else. -/
theorem iborderSPaint_positive_stroke_ops (size : Size)
    (propWidth propRadius : Option CSSProp)
    (h : 0 < parseCSSLength propWidth 2) :
    iborderSPaint size propWidth propRadius
      = [.setStrokeStyle "black",
         .setLineWidth (parseCSSLength propWidth 2),
         .translate (parseCSSLength propWidth 2 / 2) (parseCSSLength propWidth 2 / 2),
         .stroke (generateiOSRoundedRectPath
           (max 0 (size.width - parseCSSLength propWidth 2))
           (max 0 (size.height - parseCSSLength propWidth 2))
           (max 0 (parseCSSLength propRadius 10 - parseCSSLength propWidth 2 / 2)))] := by
  have hne : ¬ parseCSSLength propWidth 2 ≤ 0 := not_le.mpr h
  simp [iborderSPaint, hne]

theorem iborderSPaint_positive_stroke_ops_witness :
    0 < parseCSSLength (some (.numeric 4)) 2
      ∧ iborderSPaint ⟨50, 40⟩ (some (.numeric 4)) (some (.numeric 12))
          = [.setStrokeStyle "black",
             .setLineWidth (parseCSSLength (some (.numeric 4)) 2),
             .translate (parseCSSLength (some (.numeric 4)) 2 / 2)
               (parseCSSLength (some (.numeric 4)) 2 / 2),
             .stroke (generateiOSRoundedRectPath
               (max 0 ((50 : ℚ) - parseCSSLength (some (.numeric 4)) 2))
               (max 0 ((40 : ℚ) - parseCSSLength (some (.numeric 4)) 2))
               (max 0 (parseCSSLength (some (.numeric 12)) 10
                 - parseCSSLength (some (.numeric 4)) 2 / 2)))] :=
  ⟨by norm_num [parseCSSLength],
   iborderSPaint_positive_stroke_ops ⟨50, 40⟩ (some (.numeric 4)) (some (.numeric 12))
     (by norm_num [parseCSSLength])⟩

/-- C8 counterexample: with an absent property and default −1, the code
returns `max 0 (−1) = 0`, not the supplied default −1, refuting the
unconditional clause "absent → the supplied default is returned". -/
theorem parseCSSLength_absent_negative_default_refuted :
    parseCSSLength none (-1) ≠ -1 := by
  simp [parseCSSLength]

/-- C8 amended: a numeric magnitude is used (returned unchanged when
non-negative); a string form is resolved by parsing its leading
floating-point number with trailing unit text ignored ("12.5px" yields
12.5) and clamping it at 0; an unparseable string yields the supplied
default unchanged; an absent property yields `max 0 default` (the default
itself whenever it is non-negative); and a parseable-but-negative value
yields 0 ("-5px" yields 0, not −5 and not the default). -/
theorem parseCSSLength_resolution (d v : ℚ) (hv : 0 ≤ v) (s t : String) (w : ℚ)
    (hs : parseFloat s = none) (ht : parseFloat t = some w) (hw : w < 0) :
    parseCSSLength (some (.numeric v)) d = v
      ∧ parseCSSLength (some (.text "12.5px")) d = 12.5
      ∧ (∀ u : String, ∀ q : ℚ, parseFloat u = some q →
          parseCSSLength (some (.text u)) d = max 0 q)
      ∧ parseCSSLength (some (.text s)) d = d
      ∧ parseCSSLength none d = max 0 d
      ∧ parseCSSLength (some (.text t)) d = 0
      ∧ parseCSSLength (some (.text "-5px")) d = 0 := by
  refine ⟨?_, ?_, ?_, ?_, ?_, ?_, ?_⟩
  · simp [parseCSSLength, max_eq_right hv]
  · simp [parseCSSLength, parseFloat_12_5px]
    norm_num
  · intro u q hq
    simp [parseCSSLength, hq]
  · simp [parseCSSLength, hs]
  · simp [parseCSSLength]
  · simp [parseCSSLength, ht, max_eq_left (le_of_lt hw)]
  · simp [parseCSSLength, parseFloat_neg5px]

theorem parseCSSLength_resolution_witness :
    (0 : ℚ) ≤ 3 ∧ parseFloat "abc" = none ∧ parseFloat "-5px" = some (-5)
      ∧ (-5 : ℚ) < 0
      ∧ (parseCSSLength (some (.numeric 3)) 7 = 3
         ∧ parseCSSLength (some (.text "12.5px")) 7 = 12.5
         ∧ (∀ u : String, ∀ q : ℚ, parseFloat u = some q →
             parseCSSLength (some (.text u)) 7 = max 0 q)
         ∧ parseCSSLength (some (.text "abc")) 7 = 7
         ∧ parseCSSLength none 7 = max 0 7
         ∧ parseCSSLength (some (.text "-5px")) 7 = 0
         ∧ parseCSSLength (some (.text "-5px")) 7 = 0) :=
  ⟨by norm_num, parseFloat_abc, parseFloat_neg5px, by norm_num,
   parseCSSLength_resolution 7 3 (by norm_num) "abc" "-5px" (-5)
     parseFloat_abc parseFloat_neg5px (by norm_num)⟩

/-- C9 counterexample: with the (parseable-to-nothing) string "abc" and
default −5, the code returns the default −5 unclamped, a negative
result. -/
theorem parseCSSLength_negative_output_example :
    parseCSSLength (some (.text "abc")) (-5) < 0 := by
  simp [parseCSSLength, parseFloat_abc]

/-- C9 amended: for every property value and every non-negative default,
the number returned by `parseCSSLength` is non-negative (the original
claim fails only when an unparseable string meets a negative default,
which falls through to the default unclamped). -/
theorem parseCSSLength_nonneg_of_nonneg_default (prop : Option CSSProp) (d : ℚ)
    (hd : 0 ≤ d) :
    0 ≤ parseCSSLength prop d := by
  unfold parseCSSLength
  rcases prop with _ | p
  · simp
  · rcases p with v | s
    · simp [le_max_left]
    · rcases hpf : parseFloat s with _ | q
      · simpa [hpf] using hd
      · simp [hpf]

theorem parseCSSLength_nonneg_of_nonneg_default_witness :
    (0 : ℚ) ≤ 4 ∧ 0 ≤ parseCSSLength (some (.text "abc")) 4 :=
  ⟨by norm_num,
   parseCSSLength_nonneg_of_nonneg_default (some (.text "abc")) 4 (by norm_num)⟩

/-- C10: whenever the InsetStroke painter draws (resolved stroke width
> 0), the net translation of the drawing-surface transform after all its
operations is (sw/2, sw/2) — the translation applied before stroking is
never reset. -/
theorem iborderSPaint_translation_persists (size : Size)
    (propWidth propRadius : Option CSSProp)
    (h : 0 < parseCSSLength propWidth 2) :
    netTranslation (iborderSPaint size propWidth propRadius)
      = (parseCSSLength propWidth 2 / 2, parseCSSLength propWidth 2 / 2) := by
  have hne : ¬ parseCSSLength propWidth 2 ≤ 0 := not_le.mpr h
  simp [iborderSPaint, hne, netTranslation]

theorem iborderSPaint_translation_persists_witness :
    0 < parseCSSLength (some (.numeric 4)) 2
      ∧ netTranslation (iborderSPaint ⟨50, 40⟩ (some (.numeric 4)) (some (.numeric 12)))
          = (parseCSSLength (some (.numeric 4)) 2 / 2,
             parseCSSLength (some (.numeric 4)) 2 / 2) :=
  ⟨by norm_num [parseCSSLength],
   iborderSPaint_translation_persists ⟨50, 40⟩ (some (.numeric 4)) (some (.numeric 12))
     (by norm_num [parseCSSLength])⟩

end IBorder
